import Mathlib

/-
Shallow embedding of the bevy_lean_sdf core (src/src/sdf_primitives.rs,
src/src/sdf_operations.rs, src/src/sdf_object.rs).

Modelling conventions:
* f32 scalars are modelled as exact rationals (ℚ).  The only non-finite f32
  value reaching the modelled code paths is the +infinity seed of the object
  fold, so object-level values live in the small type F = ℚ ∪ {+∞, −∞}.
* f32::sqrt is modelled by sqrtQ, which is exact on rationals that are
  perfect squares (every square root actually evaluated in the theorems
  below is of such a rational) and a floor-style approximation elsewhere,
  mirroring the fact that f32 sqrt is exact on exactly representable squares.
* Rational division is total with q / 0 = 0; the code only divides by zero
  on the degenerate resolution = 0 path, where the quotient is never used
  by any statement proved here.
-/

/-- Rational square root: exact on perfect squares (numerator and denominator
of the reduced fraction both perfect squares), floor-style otherwise. -/
def sqrtQ (q : ℚ) : ℚ := (Nat.sqrt q.num.toNat : ℚ) / (Nat.sqrt q.den : ℚ)

/-- f32 signum as used by glam: 1 for non-negative, -1 for negative. -/
def signumQ (q : ℚ) : ℚ := if q < 0 then -1 else 1

/-- glam Vec3, components modelled as ℚ. -/
structure Vec3 where
  x : ℚ
  y : ℚ
  z : ℚ
deriving DecidableEq

namespace Vec3

def zero : Vec3 := ⟨0, 0, 0⟩

def one : Vec3 := ⟨1, 1, 1⟩

instance : Add Vec3 := ⟨fun a b => ⟨a.x + b.x, a.y + b.y, a.z + b.z⟩⟩

instance : Sub Vec3 := ⟨fun a b => ⟨a.x - b.x, a.y - b.y, a.z - b.z⟩⟩

instance : Neg Vec3 := ⟨fun a => ⟨-a.x, -a.y, -a.z⟩⟩

/-- Componentwise absolute value (glam Vec3::abs). -/
def abs (a : Vec3) : Vec3 := ⟨|a.x|, |a.y|, |a.z|⟩

/-- Componentwise minimum (glam Vec3::min). -/
def minv (a b : Vec3) : Vec3 := ⟨min a.x b.x, min a.y b.y, min a.z b.z⟩

/-- Componentwise maximum (glam Vec3::max). -/
def maxv (a b : Vec3) : Vec3 := ⟨max a.x b.x, max a.y b.y, max a.z b.z⟩

/-- glam Vec3::max_element: self.x.max(self.y.max(self.z)). -/
def max_element (a : Vec3) : ℚ := max a.x (max a.y a.z)

/-- Scalar multiple. -/
def smul (s : ℚ) (a : Vec3) : Vec3 := ⟨s * a.x, s * a.y, s * a.z⟩

/-- Vector minus a scalar on every component (glam impl Sub of f32 for Vec3). -/
def subs (a : Vec3) (s : ℚ) : Vec3 := ⟨a.x - s, a.y - s, a.z - s⟩

/-- Vector plus a scalar on every component. -/
def adds (a : Vec3) (s : ℚ) : Vec3 := ⟨a.x + s, a.y + s, a.z + s⟩

/-- Componentwise reciprocal (glam Vec3::recip). -/
def recip (a : Vec3) : Vec3 := ⟨1 / a.x, 1 / a.y, 1 / a.z⟩

/-- glam Vec3::length, with sqrtQ standing for f32 sqrt. -/
def length (a : Vec3) : ℚ := sqrtQ (a.x * a.x + a.y * a.y + a.z * a.z)

end Vec3

/-- glam Vec4, components modelled as ℚ. -/
structure Vec4 where
  x : ℚ
  y : ℚ
  z : ℚ
  w : ℚ
deriving DecidableEq

namespace Vec4

instance : Add Vec4 := ⟨fun a b => ⟨a.x + b.x, a.y + b.y, a.z + b.z, a.w + b.w⟩⟩

/-- Scalar multiple. -/
def smul (s : ℚ) (a : Vec4) : Vec4 := ⟨s * a.x, s * a.y, s * a.z, s * a.w⟩

/-- Truncate to the first three components. -/
def xyz (a : Vec4) : Vec3 := ⟨a.x, a.y, a.z⟩

/-- glam Vec4::length, with sqrtQ standing for f32 sqrt. -/
def length (a : Vec4) : ℚ := sqrtQ (a.x * a.x + a.y * a.y + a.z * a.z + a.w * a.w)

end Vec4

/-- glam Quat (x, y, z, w), components modelled as ℚ. -/
structure Quat where
  x : ℚ
  y : ℚ
  z : ℚ
  w : ℚ
deriving DecidableEq

namespace Quat

def IDENTITY : Quat := ⟨0, 0, 0, 1⟩

/-- glam Quat::from_rotation_axes (the Mat3-to-Quat branch-on-trace
algorithm), with sqrtQ standing for f32 sqrt. -/
def from_rotation_axes (x_axis y_axis z_axis : Vec3) : Quat :=
  let m00 := x_axis.x; let m01 := x_axis.y; let m02 := x_axis.z
  let m10 := y_axis.x; let m11 := y_axis.y; let m12 := y_axis.z
  let m20 := z_axis.x; let m21 := z_axis.y; let m22 := z_axis.z
  if m22 ≤ 0 then
    let dif10 := m11 - m00
    let omm22 := 1 - m22
    if dif10 ≤ 0 then
      let four_xsq := omm22 - dif10
      let inv4x := (1 / 2) / sqrtQ four_xsq
      ⟨four_xsq * inv4x, (m01 + m10) * inv4x, (m02 + m20) * inv4x,
        (m12 - m21) * inv4x⟩
    else
      let four_ysq := omm22 + dif10
      let inv4y := (1 / 2) / sqrtQ four_ysq
      ⟨(m01 + m10) * inv4y, four_ysq * inv4y, (m12 + m21) * inv4y,
        (m20 - m02) * inv4y⟩
  else
    let sum10 := m11 + m00
    let opm22 := 1 + m22
    if sum10 ≤ 0 then
      let four_zsq := opm22 - sum10
      let inv4z := (1 / 2) / sqrtQ four_zsq
      ⟨(m02 + m20) * inv4z, (m12 + m21) * inv4z, four_zsq * inv4z,
        (m01 - m10) * inv4z⟩
    else
      let four_wsq := opm22 + sum10
      let inv4w := (1 / 2) / sqrtQ four_wsq
      ⟨(m12 - m21) * inv4w, (m20 - m02) * inv4w, (m01 - m10) * inv4w,
        four_wsq * inv4w⟩

end Quat

/-- glam Mat4, stored as four column vectors. -/
structure Mat4 where
  x_axis : Vec4
  y_axis : Vec4
  z_axis : Vec4
  w_axis : Vec4
deriving DecidableEq

namespace Mat4

/-- glam Mat4::from_scale: diagonal scale matrix. -/
def from_scale (s : Vec3) : Mat4 :=
  ⟨⟨s.x, 0, 0, 0⟩, ⟨0, s.y, 0, 0⟩, ⟨0, 0, s.z, 0⟩, ⟨0, 0, 0, 1⟩⟩

/-- glam quat_to_axes: the three rotation-matrix columns of a quaternion. -/
def quat_to_axes (rotation : Quat) : Vec4 × Vec4 × Vec4 :=
  let x := rotation.x; let y := rotation.y; let z := rotation.z
  let w := rotation.w
  let x2 := x + x; let y2 := y + y; let z2 := z + z
  let xx := x * x2; let xy := x * y2; let xz := x * z2
  let yy := y * y2; let yz := y * z2; let zz := z * z2
  let wx := w * x2; let wy := w * y2; let wz := w * z2
  (⟨1 - (yy + zz), xy + wz, xz - wy, 0⟩,
   ⟨xy - wz, 1 - (xx + zz), yz + wx, 0⟩,
   ⟨xz + wy, yz - wx, 1 - (xx + yy), 0⟩)

/-- glam Mat4::from_scale_rotation_translation. -/
def from_scale_rotation_translation (scale : Vec3) (rotation : Quat)
    (translation : Vec3) : Mat4 :=
  let axes := quat_to_axes rotation
  ⟨axes.1.smul scale.x, axes.2.1.smul scale.y, axes.2.2.smul scale.z,
    ⟨translation.x, translation.y, translation.z, 1⟩⟩

/-- glam Mat4::transform_point3 (affine point transform). -/
def transform_point3 (m : Mat4) (p : Vec3) : Vec3 :=
  ((m.x_axis.smul p.x) + (m.y_axis.smul p.y) + (m.z_axis.smul p.z) +
    m.w_axis).xyz

/-- glam Mat4::determinant (columns x_axis..w_axis). -/
def determinant (m : Mat4) : ℚ :=
  let m00 := m.x_axis.x; let m01 := m.x_axis.y; let m02 := m.x_axis.z
  let m03 := m.x_axis.w
  let m10 := m.y_axis.x; let m11 := m.y_axis.y; let m12 := m.y_axis.z
  let m13 := m.y_axis.w
  let m20 := m.z_axis.x; let m21 := m.z_axis.y; let m22 := m.z_axis.z
  let m23 := m.z_axis.w
  let m30 := m.w_axis.x; let m31 := m.w_axis.y; let m32 := m.w_axis.z
  let m33 := m.w_axis.w
  let a2323 := m22 * m33 - m23 * m32
  let a1323 := m21 * m33 - m23 * m31
  let a1223 := m21 * m32 - m22 * m31
  let a0323 := m20 * m33 - m23 * m30
  let a0223 := m20 * m32 - m22 * m30
  let a0123 := m20 * m31 - m21 * m30
  m00 * (m11 * a2323 - m12 * a1323 + m13 * a1223) -
    m01 * (m10 * a2323 - m12 * a0323 + m13 * a0223) +
    m02 * (m10 * a1323 - m11 * a0323 + m13 * a0123) -
    m03 * (m10 * a1223 - m11 * a0223 + m12 * a0123)

/-- glam Mat4::inverse, cofactor form.  For a singular matrix glam returns
non-finite entries; here 1 / 0 = 0 makes the result the zero matrix — that
path is never evaluated by any theorem below. -/
def inverse (m : Mat4) : Mat4 :=
  let m00 := m.x_axis.x; let m01 := m.x_axis.y; let m02 := m.x_axis.z
  let m03 := m.x_axis.w
  let m10 := m.y_axis.x; let m11 := m.y_axis.y; let m12 := m.y_axis.z
  let m13 := m.y_axis.w
  let m20 := m.z_axis.x; let m21 := m.z_axis.y; let m22 := m.z_axis.z
  let m23 := m.z_axis.w
  let m30 := m.w_axis.x; let m31 := m.w_axis.y; let m32 := m.w_axis.z
  let m33 := m.w_axis.w
  let coef00 := m22 * m33 - m32 * m23
  let coef02 := m12 * m33 - m32 * m13
  let coef03 := m12 * m23 - m22 * m13
  let coef04 := m21 * m33 - m31 * m23
  let coef06 := m11 * m33 - m31 * m13
  let coef07 := m11 * m23 - m21 * m13
  let coef08 := m21 * m32 - m31 * m22
  let coef10 := m11 * m32 - m31 * m12
  let coef11 := m11 * m22 - m21 * m12
  let coef12 := m20 * m33 - m30 * m23
  let coef14 := m10 * m33 - m30 * m13
  let coef15 := m10 * m23 - m20 * m13
  let coef16 := m20 * m32 - m30 * m22
  let coef18 := m10 * m32 - m30 * m12
  let coef19 := m10 * m22 - m20 * m12
  let coef20 := m20 * m31 - m30 * m21
  let coef22 := m10 * m31 - m30 * m11
  let coef23 := m10 * m21 - m20 * m11
  let i00 := m11 * coef00 - m12 * coef04 + m13 * coef08
  let i01 := -(m01 * coef00 - m02 * coef04 + m03 * coef08)
  let i02 := m01 * coef02 - m02 * coef06 + m03 * coef10
  let i03 := -(m01 * coef03 - m02 * coef07 + m03 * coef11)
  let i10 := -(m10 * coef00 - m12 * coef12 + m13 * coef16)
  let i11 := m00 * coef00 - m02 * coef12 + m03 * coef16
  let i12 := -(m00 * coef02 - m02 * coef14 + m03 * coef18)
  let i13 := m00 * coef03 - m02 * coef15 + m03 * coef19
  let i20 := m10 * coef04 - m11 * coef12 + m13 * coef20
  let i21 := -(m00 * coef04 - m01 * coef12 + m03 * coef20)
  let i22 := m00 * coef06 - m01 * coef14 + m03 * coef22
  let i23 := -(m00 * coef07 - m01 * coef15 + m03 * coef23)
  let i30 := -(m10 * coef08 - m11 * coef16 + m12 * coef20)
  let i31 := m00 * coef08 - m01 * coef16 + m02 * coef20
  let i32 := -(m00 * coef10 - m01 * coef18 + m02 * coef22)
  let i33 := m00 * coef11 - m01 * coef19 + m02 * coef23
  let det := m00 * i00 + m01 * i10 + m02 * i20 + m03 * i30
  let inv_det := 1 / det
  ⟨⟨i00 * inv_det, i01 * inv_det, i02 * inv_det, i03 * inv_det⟩,
   ⟨i10 * inv_det, i11 * inv_det, i12 * inv_det, i13 * inv_det⟩,
   ⟨i20 * inv_det, i21 * inv_det, i22 * inv_det, i23 * inv_det⟩,
   ⟨i30 * inv_det, i31 * inv_det, i32 * inv_det, i33 * inv_det⟩⟩

/-- glam Mat4::to_scale_rotation_translation. -/
def to_scale_rotation_translation (m : Mat4) : Vec3 × Quat × Vec3 :=
  let det := m.determinant
  let scale : Vec3 :=
    ⟨m.x_axis.length * signumQ det, m.y_axis.length, m.z_axis.length⟩
  let inv_scale := scale.recip
  let rotation := Quat.from_rotation_axes (m.x_axis.smul inv_scale.x).xyz
    (m.y_axis.smul inv_scale.y).xyz (m.z_axis.smul inv_scale.z).xyz
  (scale, rotation, m.w_axis.xyz)

end Mat4

/-- Object-level f32 values: finite rationals together with the two IEEE
infinities.  The fold in SDFObject::value_at_point seeds with f32::INFINITY;
every other value produced by the modelled paths is finite.  NaN never
arises on those paths and is not modelled. -/
inductive F where
  | fin : ℚ → F
  | inf : F
  | ninf : F
deriving DecidableEq

namespace F

/-- IEEE less-or-equal on F (total here, since NaN is absent). -/
def le : F → F → Bool
  | .fin a, .fin b => a ≤ b
  | .fin _, .inf => true
  | .fin _, .ninf => false
  | .inf, .inf => true
  | .inf, _ => false
  | .ninf, _ => true

/-- f32::min on F. -/
def fmin (a b : F) : F := if a.le b then a else b

/-- f32::max on F. -/
def fmax (a b : F) : F := if a.le b then b else a

/-- Negation; models the -1. * x of the source, which is exact negation for
every non-NaN f32 including the infinities. -/
def neg : F → F
  | .fin a => .fin (-a)
  | .inf => .ninf
  | .ninf => .inf

end F

/-- src/src/sdf_primitives.rs: the SDFPrimitive enum. -/
inductive SDFPrimitive where
  | Sphere : ℚ → SDFPrimitive
  | Box : Vec3 → SDFPrimitive
deriving DecidableEq

/-- src/src/sdf_primitives.rs sphere_sdf. -/
def sphere_sdf (point : Vec3) (radius : ℚ) : ℚ := point.length - radius

/-- src/src/sdf_primitives.rs box_sdf. -/
def box_sdf (point : Vec3) (bounds : Vec3) : ℚ :=
  let q := point.abs - bounds
  (q.maxv Vec3.zero).length + min (max (max q.y q.z) q.x) 0

namespace SDFPrimitive

/-- src/src/sdf_primitives.rs SDFPrimitive::value_at_point. -/
def value_at_point : SDFPrimitive → Vec3 → ℚ
  | .Sphere radius, point => sphere_sdf point radius
  | .Box bounds, point => box_sdf point bounds

/-- src/src/sdf_primitives.rs SDFPrimitive::get_bounds. -/
def get_bounds : SDFPrimitive → Vec3 × Vec3
  | .Sphere radius => (Vec3.smul (-radius) Vec3.one, Vec3.smul radius Vec3.one)
  | .Box bounds => (-bounds, bounds)

end SDFPrimitive

/- src/src/sdf_operations.rs lines 56-66: the free combiners on evaluated
SDFs, with an SDF modelled as its evaluation function Vec3 → ℚ. -/

/-- src/src/sdf_operations.rs union. -/
def sdfUnion (point : Vec3) (left right : Vec3 → ℚ) : ℚ :=
  min (left point) (right point)

/-- src/src/sdf_operations.rs subtraction. -/
def sdfSubtraction (point : Vec3) (left right : Vec3 → ℚ) : ℚ :=
  max (left point) (-1 * right point)

/-- src/src/sdf_operations.rs intersection. -/
def sdfIntersection (point : Vec3) (left right : Vec3 → ℚ) : ℚ :=
  max (left point) (right point)

/-- Modelled from the spec: the SDFOperators enum used by sdf_object.rs is
not under src/ (sdf_operations.rs only holds the generic combinators); spec
section 3 fixes its three variants. -/
inductive SDFOperators where
  | Union : SDFOperators
  | Subtraction : SDFOperators
  | Intersection : SDFOperators
deriving DecidableEq

namespace SDFOperators

/-- Modelled from the spec: SDFOperators::value (combine_value of spec
section 4.2) is not under src/.  Union: min(a, b); Subtraction: max(a, −b);
Intersection: max(a, b) — matching the union/subtraction/intersection
combiners of sdf_operations.rs on evaluated values. -/
def value : SDFOperators → F → F → F
  | .Union, a, b => F.fmin a b
  | .Subtraction, a, b => F.fmax a (F.neg b)
  | .Intersection, a, b => F.fmax a b

/-- Modelled from the spec: SDFOperators::get_bounds (combine_bounds of spec
section 4.2) is not under src/.  Union: envelope; Subtraction: the first
bounds unchanged; Intersection: componentwise max of mins, min of maxes. -/
def get_bounds : SDFOperators → Vec3 × Vec3 → Vec3 × Vec3 → Vec3 × Vec3
  | .Union, a, b => (a.1.minv b.1, a.2.maxv b.2)
  | .Subtraction, a, _ => a
  | .Intersection, a, b => (a.1.maxv b.1, a.2.minv b.2)

end SDFOperators

/-- src/src/sdf_object.rs: SDFElement.  (The Rust struct derives Debug and
Clone only; the mesh-handle-free core fields are modelled.) -/
structure SDFElement where
  primitive : SDFPrimitive
  transform : Mat4
  inverse : Mat4
  scale : ℚ
  operation : SDFOperators
deriving DecidableEq

namespace SDFElement

/-- src/src/sdf_object.rs impl Default for SDFElement. -/
def default : SDFElement :=
  let transform := Mat4.from_scale Vec3.one
  { primitive := .Sphere 1
    inverse := transform.inverse
    transform := transform
    scale := 1
    operation := .Union }

/-- src/src/sdf_object.rs SDFElement::new. -/
def new : SDFElement := default

/-- src/src/sdf_object.rs SDFElement::with_primitive. -/
def with_primitive (e : SDFElement) (primitive : SDFPrimitive) : SDFElement :=
  { e with primitive := primitive }

/-- src/src/sdf_object.rs SDFElement::with_operation. -/
def with_operation (e : SDFElement) (operation : SDFOperators) : SDFElement :=
  { e with operation := operation }

/-- src/src/sdf_object.rs SDFElement::with_translation. -/
def with_translation (e : SDFElement) (translation : Vec3) : SDFElement :=
  let srt := e.transform.to_scale_rotation_translation
  let transform :=
    Mat4.from_scale_rotation_translation srt.1 srt.2.1 translation
  { e with transform := transform, inverse := transform.inverse }

/-- src/src/sdf_object.rs SDFElement::with_rotation. -/
def with_rotation (e : SDFElement) (rotation : Quat) : SDFElement :=
  let srt := e.transform.to_scale_rotation_translation
  let transform :=
    Mat4.from_scale_rotation_translation srt.1 rotation srt.2.2
  { e with transform := transform, inverse := transform.inverse }

/-- src/src/sdf_object.rs SDFElement::with_scale. -/
def with_scale (e : SDFElement) (scale : ℚ) : SDFElement :=
  let srt := e.transform.to_scale_rotation_translation
  let scale := |scale|
  let scale_vec := Vec3.smul scale Vec3.one
  let transform :=
    Mat4.from_scale_rotation_translation scale_vec srt.2.1 srt.2.2
  { e with
      scale := scale
      transform := transform
      inverse := transform.inverse }

/-- src/src/sdf_object.rs SDFElement::value_at_point. -/
def value_at_point (e : SDFElement) (point : Vec3) : ℚ :=
  e.primitive.value_at_point (e.inverse.transform_point3 point) * e.scale

/-- src/src/sdf_object.rs SDFElement::process_object_at_point.  The freshly
evaluated element value is finite, hence enters F through F.fin. -/
def process_object_at_point (e : SDFElement) (point : Vec3) (previous : F) :
    F :=
  e.operation.value previous (F.fin (e.value_at_point point))

/-- src/src/sdf_object.rs SDFElement::get_bounds. -/
def get_bounds (e : SDFElement) (previous : Option (Vec3 × Vec3)) :
    Vec3 × Vec3 :=
  let bounds := e.primitive.get_bounds
  let bounds := (e.transform.transform_point3 bounds.1,
    e.transform.transform_point3 bounds.2)
  let bounds := (bounds.1.minv bounds.2, bounds.1.maxv bounds.2)
  match previous with
  | some previous => e.operation.get_bounds previous bounds
  | none => bounds

end SDFElement

/-- src/src/sdf_object.rs: SDFObject.  The mesh_handle field is an asset
handle of the excluded rendering layer and carries no core semantics. -/
structure SDFObject where
  elements : List SDFElement
deriving DecidableEq

namespace SDFObject

/-- src/src/sdf_object.rs SDFObject::with_element. -/
def with_element (o : SDFObject) (element : SDFElement) : SDFObject :=
  ⟨o.elements ++ [element]⟩

/-- src/src/sdf_object.rs SDFObject::value_at_point: left fold over the
elements, seeded with f32::INFINITY. -/
def value_at_point (o : SDFObject) (point : Vec3) : F :=
  o.elements.foldl
    (fun value element => element.process_object_at_point point value) F.inf

/-- src/src/sdf_object.rs SDFObject::get_bounds. -/
def get_bounds (o : SDFObject) : Vec3 × Vec3 :=
  (o.elements.foldl
    (fun value element => some (element.get_bounds value)) none).getD
    (Vec3.zero, Vec3.zero)

/-- The surface-adjacency inclusion test of generate_boxes and
generate_texture: sdf <= box_size && sdf >= -box_size. -/
def surfTest (sdf : F) (box_size : ℚ) : Bool :=
  sdf.le (F.fin box_size) && (F.fin (-box_size)).le sdf

/-- src/src/sdf_object.rs SDFObject::generate_boxes.  The imperative
x-outer / y-middle / z-inner loop nest with conditional push is rendered as
nested flatMaps with an inner filterMap in the same iteration order. -/
def generate_boxes (o : SDFObject) (resolution : ℕ) (bounds : Vec3 × Vec3) :
    ℚ × List Vec3 :=
  let size := (bounds.2 - bounds.1).max_element
  let box_size := size / (resolution : ℚ)
  let half_box_size := box_size / 2
  let boxes := (List.range resolution).flatMap fun (x : ℕ) =>
    (List.range resolution).flatMap fun (y : ℕ) =>
      (List.range resolution).filterMap fun (z : ℕ) =>
        let point : Vec3 :=
          ⟨bounds.1.x + (x : ℚ) * box_size + half_box_size,
           bounds.1.y + (y : ℚ) * box_size + half_box_size,
           bounds.1.z + (z : ℚ) * box_size + half_box_size⟩
        let sdf := o.value_at_point point
        if surfTest sdf box_size then some point else none
  (box_size, boxes)

/-- src/src/sdf_object.rs SDFObject::generate_texture: same loop nest as
generate_boxes, recording byte 1 or 0 per cell instead of pushing centers. -/
def generate_texture (o : SDFObject) (resolution : ℕ)
    (bounds : Vec3 × Vec3) : List ℕ :=
  let size := (bounds.2 - bounds.1).max_element
  let box_size := size / (resolution : ℚ)
  let half_box_size := box_size / 2
  (List.range resolution).flatMap fun (x : ℕ) =>
    (List.range resolution).flatMap fun (y : ℕ) =>
      (List.range resolution).map fun (z : ℕ) =>
        let point : Vec3 :=
          ⟨bounds.1.x + (x : ℚ) * box_size + half_box_size,
           bounds.1.y + (y : ℚ) * box_size + half_box_size,
           bounds.1.z + (z : ℚ) * box_size + half_box_size⟩
        let sdf := o.value_at_point point
        if surfTest sdf box_size then 1 else 0

/-- src/src/sdf_object.rs SDFObject::generate_lod_boxes, inner loop.  The
source loop breaks once lods.len() >= max_lods and otherwise pushes exactly
one level per iteration, so it is rendered with a fuel argument satisfying
fuel = max_lods - lods.length at every call. -/
def generate_lod_boxes_go (o : SDFObject) (resolution : ℕ)
    (min_box_size : ℚ) (bounds : Vec3 × Vec3) :
    ℕ → List (ℚ × List (List Vec3)) → List (ℚ × List (List Vec3))
  | 0, lods => lods
  | fuel + 1, lods =>
    match lods.getLast? with
    | some (last_lod_size, last_lod_vecs) =>
      if last_lod_size < min_box_size then lods
      else
        let lod_half_size := last_lod_size / 2
        let new_size := lod_half_size / (resolution : ℚ)
        let step := last_lod_vecs.flatten.foldl
          (fun (acc : ℚ × List (List Vec3)) current =>
            let result := o.generate_boxes resolution
              (current.subs lod_half_size, current.adds lod_half_size)
            (result.1, acc.2 ++ [result.2]))
          (new_size, [])
        o.generate_lod_boxes_go resolution min_box_size bounds fuel
          (lods ++ [(step.1, step.2)])
    | none =>
      let result := o.generate_boxes resolution bounds
      o.generate_lod_boxes_go resolution min_box_size bounds fuel
        (lods ++ [(result.1, [result.2])])

/-- src/src/sdf_object.rs SDFObject::generate_lod_boxes. -/
def generate_lod_boxes (o : SDFObject) (resolution : ℕ) (max_lods : ℕ)
    (min_box_size : ℚ) : List (ℚ × List (List Vec3)) :=
  o.generate_lod_boxes_go resolution min_box_size o.get_bounds max_lods []

end SDFObject

/-- bevy Mesh, restricted to the attributes the synthesizer produces. -/
structure Mesh where
  positions : List (ℚ × ℚ × ℚ)
  normals : List (ℚ × ℚ × ℚ)
  uvs : List (ℚ × ℚ)
  indices : List ℕ
deriving DecidableEq

/-- src/src/sdf_object.rs build_box: 24 vertices (4 per face) and 36 indices
(2 triangles per face) for one cube, indices offset by start_index. -/
def build_box (position : Vec3) (size : ℚ) (start_index : ℕ) :
    ℕ × List (ℚ × ℚ × ℚ) × List (ℚ × ℚ × ℚ) × List (ℚ × ℚ) × List ℕ :=
  let half_size := size / 2
  let mn := position.subs half_size
  let mx := position.adds half_size
  let vertices : List ((ℚ × ℚ × ℚ) × (ℚ × ℚ × ℚ) × (ℚ × ℚ)) :=
    [((mn.x, mn.y, mx.z), (0, 0, 1), (0, 0)),
     ((mx.x, mn.y, mx.z), (0, 0, 1), (1, 0)),
     ((mx.x, mx.y, mx.z), (0, 0, 1), (1, 1)),
     ((mn.x, mx.y, mx.z), (0, 0, 1), (0, 1)),
     ((mn.x, mx.y, mn.z), (0, 0, -1), (1, 0)),
     ((mx.x, mx.y, mn.z), (0, 0, -1), (0, 0)),
     ((mx.x, mn.y, mn.z), (0, 0, -1), (0, 1)),
     ((mn.x, mn.y, mn.z), (0, 0, -1), (1, 1)),
     ((mx.x, mn.y, mn.z), (1, 0, 0), (0, 0)),
     ((mx.x, mx.y, mn.z), (1, 0, 0), (1, 0)),
     ((mx.x, mx.y, mx.z), (1, 0, 0), (1, 1)),
     ((mx.x, mn.y, mx.z), (1, 0, 0), (0, 1)),
     ((mn.x, mn.y, mx.z), (-1, 0, 0), (1, 0)),
     ((mn.x, mx.y, mx.z), (-1, 0, 0), (0, 0)),
     ((mn.x, mx.y, mn.z), (-1, 0, 0), (0, 1)),
     ((mn.x, mn.y, mn.z), (-1, 0, 0), (1, 1)),
     ((mx.x, mx.y, mn.z), (0, 1, 0), (1, 0)),
     ((mn.x, mx.y, mn.z), (0, 1, 0), (0, 0)),
     ((mn.x, mx.y, mx.z), (0, 1, 0), (0, 1)),
     ((mx.x, mx.y, mx.z), (0, 1, 0), (1, 1)),
     ((mx.x, mn.y, mx.z), (0, -1, 0), (0, 0)),
     ((mn.x, mn.y, mx.z), (0, -1, 0), (1, 0)),
     ((mn.x, mn.y, mn.z), (0, -1, 0), (1, 1)),
     ((mx.x, mn.y, mn.z), (0, -1, 0), (0, 1))]
  let positions := vertices.map (fun v => v.1)
  let normals := vertices.map (fun v => v.2.1)
  let uvs := vertices.map (fun v => v.2.2)
  let indices := ([0, 1, 2, 2, 3, 0,
    4, 5, 6, 6, 7, 4,
    8, 9, 10, 10, 11, 8,
    12, 13, 14, 14, 15, 12,
    16, 17, 18, 18, 19, 16,
    20, 21, 22, 22, 23, 20] : List ℕ).map (fun v => v + start_index)
  let next_index := positions.length + start_index
  (next_index, positions, normals, uvs, indices)

/-- The unit-cube fallback mesh.  Modelled from the bevy dependency:
Mesh::from(shape::Cube::default()) produces the same 24-vertex, 36-index
box layout as build_box at the origin with edge length 1. -/
def unitCubeMesh : Mesh :=
  let b := build_box Vec3.zero 1 0
  ⟨b.2.1, b.2.2.1, b.2.2.2.1, b.2.2.2.2⟩

namespace SDFObject

/-- src/src/sdf_object.rs SDFObject::generate_box_mesh. -/
def generate_box_mesh (o : SDFObject) (resolution : ℕ) (target_lod : ℕ)
    (min_box_size : ℚ) : Mesh :=
  let lod_boxes := o.generate_lod_boxes resolution target_lod min_box_size
  match lod_boxes.getLast? with
  | some (size, boxes) =>
    let acc := boxes.flatten.foldl
      (fun (acc : ℕ × List (ℚ × ℚ × ℚ) × List (ℚ × ℚ × ℚ) × List (ℚ × ℚ) ×
          List ℕ) b =>
        let built := build_box b size acc.1
        (built.1, acc.2.1 ++ built.2.1, acc.2.2.1 ++ built.2.2.1,
          acc.2.2.2.1 ++ built.2.2.2.1, acc.2.2.2.2 ++ built.2.2.2.2))
      (0, [], [], [], [])
    ⟨acc.2.1, acc.2.2.1, acc.2.2.2.1, acc.2.2.2.2⟩
  | none => unitCubeMesh

end SDFObject

/-- The single-element object of the regression scenario: one untransformed
Box primitive with half-extents (1, 1, 1). -/
def unitBoxObject : SDFObject :=
  ⟨[SDFElement.default.with_primitive (.Box Vec3.one)]⟩

/-- The object with zero elements. -/
def emptyObject : SDFObject := ⟨[]⟩

/- Helper lemmas about the F combiners. -/

theorem F.fmin_fin (a b : ℚ) : F.fmin (.fin a) (.fin b) = .fin (min a b) := by
  unfold F.fmin F.le
  by_cases h : a ≤ b
  · simp [h, min_eq_left h]
  · simp [h, min_eq_right (le_of_not_le h)]

theorem F.fmax_fin (a b : ℚ) : F.fmax (.fin a) (.fin b) = .fin (max a b) := by
  unfold F.fmax F.le
  by_cases h : a ≤ b
  · simp [h, max_eq_right h]
  · simp [h, max_eq_left (le_of_not_le h)]

theorem F.fmin_comm (a b : F) : F.fmin a b = F.fmin b a := by
  cases a <;> cases b <;> try rfl
  next a b =>
    rw [F.fmin_fin, F.fmin_fin, min_comm]

/-- C3: under Union the combiner is min (and commutative), under Subtraction
it is max(a, −b) (and not commutative: witnessed at a = 0, b = 1), under
Intersection it is max; these scalar rules agree with the
union/subtraction/intersection combiners of sdf_operations.rs on evaluated
values, and Object evaluation passes the accumulated value of all previous
elements as the first operand. -/
theorem combine_value_operator_algebra :
    (∀ a b : F, SDFOperators.value .Union a b = F.fmin a b) ∧
    (∀ a b : F,
      SDFOperators.value .Union a b = SDFOperators.value .Union b a) ∧
    (∀ a b : F, SDFOperators.value .Subtraction a b = F.fmax a (F.neg b)) ∧
    (∃ a b : F, SDFOperators.value .Subtraction a b ≠
      SDFOperators.value .Subtraction b a) ∧
    (∀ a b : F, SDFOperators.value .Intersection a b = F.fmax a b) ∧
    (∀ (p : Vec3) (l r : Vec3 → ℚ), F.fin (sdfUnion p l r) =
      SDFOperators.value .Union (F.fin (l p)) (F.fin (r p))) ∧
    (∀ (p : Vec3) (l r : Vec3 → ℚ), F.fin (sdfSubtraction p l r) =
      SDFOperators.value .Subtraction (F.fin (l p)) (F.fin (r p))) ∧
    (∀ (p : Vec3) (l r : Vec3 → ℚ), F.fin (sdfIntersection p l r) =
      SDFOperators.value .Intersection (F.fin (l p)) (F.fin (r p))) ∧
    (∀ (e : SDFElement) (p : Vec3) (previous : F),
      e.process_object_at_point p previous =
        e.operation.value previous (F.fin (e.value_at_point p))) := by
  refine ⟨fun a b => rfl, fun a b => F.fmin_comm a b, fun a b => rfl,
    ⟨F.fin 0, F.fin 1, ?_⟩, fun a b => rfl, ?_, ?_, ?_, fun e p prev => rfl⟩
  · show F.fmax (F.fin 0) (F.fin (-1)) ≠ F.fmax (F.fin 1) (F.fin (-0))
    rw [F.fmax_fin, F.fmax_fin, max_eq_left (by norm_num : (-1 : ℚ) ≤ 0),
      max_eq_left (by norm_num : (-0 : ℚ) ≤ 1)]
    simp only [ne_eq, F.fin.injEq]
    norm_num
  · intro p l r
    show F.fin (min (l p) (r p)) = F.fmin (F.fin (l p)) (F.fin (r p))
    rw [F.fmin_fin]
  · intro p l r
    show F.fin (max (l p) (-1 * r p)) =
      F.fmax (F.fin (l p)) (F.neg (F.fin (r p)))
    unfold F.neg
    rw [F.fmax_fin, neg_one_mul]
  · intro p l r
    show F.fin (max (l p) (r p)) = F.fmax (F.fin (l p)) (F.fin (r p))
    rw [F.fmax_fin]

/-- C4: Object value_at_point is the left fold of process_object_at_point
over the elements in sequence order, seeded with +infinity; an Object with
zero elements evaluates to +infinity everywhere and its get_bounds is the
canonical empty box (0,0,0)-(0,0,0). -/
theorem value_at_point_fold_and_empty_defaults (o : SDFObject) (p : Vec3) :
    o.value_at_point p =
      o.elements.foldl
        (fun value element => element.process_object_at_point p value)
        F.inf ∧
    emptyObject.value_at_point p = F.inf ∧
    emptyObject.get_bounds = (Vec3.zero, Vec3.zero) :=
  ⟨rfl, rfl, rfl⟩

set_option maxRecDepth 400000 in
/-- C6: on the single-element object holding an untransformed Box primitive
with half-extents (1,1,1), generate_boxes at resolution 3 over the object's
own bounds returns cell edge 2/3 and exactly 26 surviving cell centers. -/
theorem generate_boxes_unit_box_regression :
    (unitBoxObject.generate_boxes 3 unitBoxObject.get_bounds).1 = 2 / 3 ∧
    (unitBoxObject.generate_boxes 3 unitBoxObject.get_bounds).2.length =
      26 :=
  ⟨by with_unfolding_all rfl, by with_unfolding_all rfl⟩

/-- C7 counterexample: a resolution-0 call is not rejected — on the unit-box
object, generate_boxes returns the empty box list and generate_texture the
empty buffer, silently. -/
theorem resolution_zero_counterexample :
    (unitBoxObject.generate_boxes 0 unitBoxObject.get_bounds).2 = [] ∧
    unitBoxObject.generate_texture 0 unitBoxObject.get_bounds = [] :=
  ⟨by with_unfolding_all rfl, by with_unfolding_all rfl⟩

/-- C7 amended: with resolution = 0 no rejection happens — the 0..0 loops
run zero iterations, so generate_boxes always returns an empty box list and
generate_texture an empty byte buffer. -/
theorem resolution_zero_silent_empty (o : SDFObject) (bounds : Vec3 × Vec3) :
    (o.generate_boxes 0 bounds).2 = [] ∧ o.generate_texture 0 bounds = [] :=
  ⟨rfl, rfl⟩

/-- The center of grid cell (x, y, z) as computed by the generator loops:
bounds minimum plus (index + 1/2) times the cell edge on each axis, with the
same edge length on all three axes. -/
def gridCenter (bmin : Vec3) (box_size : ℚ) (x y z : ℕ) : Vec3 :=
  ⟨bmin.x + (x : ℚ) * box_size + box_size / 2,
   bmin.y + (y : ℚ) * box_size + box_size / 2,
   bmin.z + (z : ℚ) * box_size + box_size / 2⟩

theorem generate_boxes_snd_eq (o : SDFObject) (res : ℕ)
    (bounds : Vec3 × Vec3) :
    (o.generate_boxes res bounds).2 =
      (List.range res).flatMap fun x => (List.range res).flatMap fun y =>
        (List.range res).filterMap fun z =>
          if SDFObject.surfTest
              (o.value_at_point (gridCenter bounds.1
                ((bounds.2 - bounds.1).max_element / (res : ℚ)) x y z))
              ((bounds.2 - bounds.1).max_element / (res : ℚ))
          then some (gridCenter bounds.1
            ((bounds.2 - bounds.1).max_element / (res : ℚ)) x y z)
          else none := by
  unfold SDFObject.generate_boxes gridCenter
  rfl

theorem mem_grid_filterMap {res : ℕ} {f : ℕ → ℕ → ℕ → Vec3}
    {t : Vec3 → Bool} {p : Vec3} :
    (p ∈ (List.range res).flatMap fun x => (List.range res).flatMap fun y =>
      (List.range res).filterMap fun z =>
        if t (f x y z) then some (f x y z) else none) ↔
    ((∃ x, x < res ∧ ∃ y, y < res ∧ ∃ z, z < res ∧ p = f x y z) ∧
      t p = true) := by
  simp only [List.mem_flatMap, List.mem_filterMap, List.mem_range]
  constructor
  · rintro ⟨x, hx, y, hy, z, hz, hsome⟩
    by_cases ht : t (f x y z) = true
    · rw [if_pos ht, Option.some_inj] at hsome
      subst hsome
      exact ⟨⟨x, hx, y, hy, z, hz, rfl⟩, ht⟩
    · rw [if_neg ht] at hsome
      exact absurd hsome (by simp)
  · rintro ⟨⟨x, hx, y, hy, z, hz, rfl⟩, ht⟩
    exact ⟨x, hx, y, hy, z, hz, by rw [if_pos ht]⟩

theorem mem_generate_boxes (o : SDFObject) (res : ℕ) (bounds : Vec3 × Vec3)
    (p : Vec3) :
    p ∈ (o.generate_boxes res bounds).2 ↔
    ((∃ x, x < res ∧ ∃ y, y < res ∧ ∃ z, z < res ∧
        p = gridCenter bounds.1
          ((bounds.2 - bounds.1).max_element / (res : ℚ)) x y z) ∧
      SDFObject.surfTest (o.value_at_point p)
        ((bounds.2 - bounds.1).max_element / (res : ℚ)) = true) := by
  rw [generate_boxes_snd_eq]
  exact @mem_grid_filterMap res
    (fun x y z => gridCenter bounds.1
      ((bounds.2 - bounds.1).max_element / (res : ℚ)) x y z)
    (fun v => SDFObject.surfTest (o.value_at_point v)
      ((bounds.2 - bounds.1).max_element / (res : ℚ))) p

/-- C1: for every object, resolution and bounds, generate_boxes uses the
single cell edge max_element(bounds.max - bounds.min) / resolution,
identical on all three axes (gridCenter applies that one edge on each
axis), and a grid cell's center is in the returned list exactly when the
SDF value v at that center satisfies -cell_edge <= v <= cell_edge, with
this exact loose inequality. -/
theorem generate_boxes_cell_edge_and_inclusion (o : SDFObject) (res : ℕ)
    (bounds : Vec3 × Vec3) (hres : 1 ≤ res) :
    (o.generate_boxes res bounds).1 =
      (bounds.2 - bounds.1).max_element / (res : ℚ) ∧
    ∀ x y z : ℕ, x < res → y < res → z < res →
      (gridCenter bounds.1 ((bounds.2 - bounds.1).max_element / (res : ℚ))
          x y z ∈ (o.generate_boxes res bounds).2 ↔
        ((F.fin (-((bounds.2 - bounds.1).max_element / (res : ℚ)))).le
            (o.value_at_point (gridCenter bounds.1
              ((bounds.2 - bounds.1).max_element / (res : ℚ)) x y z)) =
          true ∧
        (o.value_at_point (gridCenter bounds.1
            ((bounds.2 - bounds.1).max_element / (res : ℚ)) x y z)).le
            (F.fin ((bounds.2 - bounds.1).max_element / (res : ℚ))) =
          true)) := by
  refine ⟨rfl, fun x y z hx hy hz => ?_⟩
  rw [mem_generate_boxes]
  unfold SDFObject.surfTest
  constructor
  · rintro ⟨-, ht⟩
    rcases Bool.and_eq_true_iff.mp ht with ⟨h1, h2⟩
    exact ⟨h2, h1⟩
  · rintro ⟨h1, h2⟩
    exact ⟨⟨x, hx, y, hy, z, hz, rfl⟩, Bool.and_eq_true_iff.mpr ⟨h2, h1⟩⟩

/-- Closed instance of the cell-edge theorem at a concrete input. -/
theorem generate_boxes_cell_edge_and_inclusion_witness :
    (emptyObject.generate_boxes 1 (Vec3.zero, Vec3.one)).1 =
      ((Vec3.zero, Vec3.one).2 - (Vec3.zero, Vec3.one).1).max_element /
        ((1 : ℕ) : ℚ) :=
  (generate_boxes_cell_edge_and_inclusion emptyObject 1
    (Vec3.zero, Vec3.one) (by decide)).1

theorem getD_flatten_uniform {α : Type} (d : α) (m : ℕ) :
    ∀ (L : List (List α)), (∀ l ∈ L, l.length = m) →
      ∀ i j : ℕ, i < L.length → j < m →
        L.flatten.getD (i * m + j) d = (L.getD i []).getD j d := by
  intro L
  induction L with
  | nil => intro _ i j hi _; exact absurd hi (Nat.not_lt_zero i)
  | cons hd tl ih =>
    intro hlen i j hi hj
    have hhd : hd.length = m := hlen hd (List.mem_cons_self hd tl)
    cases i with
    | zero =>
      rw [List.flatten_cons, Nat.zero_mul, Nat.zero_add,
        List.getD_append hd tl.flatten d j (by rw [hhd]; exact hj)]
      rfl
    | succ i =>
      rw [List.flatten_cons,
        List.getD_append_right hd tl.flatten d ((i + 1) * m + j)
          (by rw [hhd, Nat.succ_mul]; omega)]
      have harith : (i + 1) * m + j - hd.length = i * m + j := by
        rw [hhd, Nat.succ_mul]; omega
      rw [harith,
        ih (fun l hl => hlen l (List.mem_cons_of_mem hd hl)) i j
          (Nat.lt_of_succ_lt_succ hi) hj]
      rfl

theorem getD_flatMapRange_uniform {α : Type} (d : α) (n m : ℕ)
    (g : ℕ → List α) (hg : ∀ i, (g i).length = m) (i j : ℕ) (hi : i < n)
    (hj : j < m) :
    ((List.range n).flatMap g).getD (i * m + j) d = (g i).getD j d := by
  rw [List.flatMap_def]
  have h1 : ∀ l ∈ (List.range n).map g, l.length = m := by
    intro l hl
    rcases List.mem_map.mp hl with ⟨a, -, rfl⟩
    exact hg a
  have h2 : i < ((List.range n).map g).length := by simpa using hi
  rw [getD_flatten_uniform d m ((List.range n).map g) h1 i j h2 hj]
  congr 1
  rw [List.getD_eq_getElem?_getD, List.getElem?_map, List.getElem?_range hi]
  rfl

theorem length_flatMapRange_uniform {α : Type} (n m : ℕ) (g : ℕ → List α)
    (hg : ∀ i, (g i).length = m) :
    ((List.range n).flatMap g).length = n * m := by
  rw [List.length_flatMap]
  have h : (List.range n).map (List.length ∘ g) = List.replicate n m := by
    rw [List.eq_replicate_iff]
    refine ⟨by simp, ?_⟩
    intro b hb
    rcases List.mem_map.mp hb with ⟨a, -, rfl⟩
    exact hg a
  rw [h, List.sum_replicate, smul_eq_mul]

theorem generate_texture_eq (o : SDFObject) (res : ℕ)
    (bounds : Vec3 × Vec3) :
    o.generate_texture res bounds =
      (List.range res).flatMap fun (x : ℕ) =>
        (List.range res).flatMap fun (y : ℕ) =>
          (List.range res).map fun (z : ℕ) =>
            if SDFObject.surfTest
                (o.value_at_point (gridCenter bounds.1
                  ((bounds.2 - bounds.1).max_element / (res : ℚ)) x y z))
                ((bounds.2 - bounds.1).max_element / (res : ℚ))
            then 1 else 0 := by
  unfold SDFObject.generate_texture gridCenter
  rfl

theorem generate_texture_getD (o : SDFObject) (res : ℕ)
    (bounds : Vec3 × Vec3) (x y z : ℕ) (hx : x < res) (hy : y < res)
    (hz : z < res) :
    (o.generate_texture res bounds).getD (x * res ^ 2 + y * res + z) 0 =
      if SDFObject.surfTest
          (o.value_at_point (gridCenter bounds.1
            ((bounds.2 - bounds.1).max_element / (res : ℚ)) x y z))
          ((bounds.2 - bounds.1).max_element / (res : ℚ))
      then 1 else 0 := by
  rw [generate_texture_eq]
  have hidx : x * res ^ 2 + y * res + z = x * (res * res) + (y * res + z) := by
    ring
  have hyz : y * res + z < res * res := by
    calc y * res + z < y * res + res := by omega
    _ = (y + 1) * res := by ring
    _ ≤ res * res := Nat.mul_le_mul_right res hy
  rw [hidx,
    getD_flatMapRange_uniform 0 res (res * res) _
      (fun i => by
        rw [length_flatMapRange_uniform res res _ (fun j => by simp)])
      x (y * res + z) hx hyz,
    getD_flatMapRange_uniform 0 res res _ (fun j => by simp) y z hy hz,
    List.getD_eq_getElem?_getD, List.getElem?_map, List.getElem?_range hz]
  rfl

theorem generate_texture_length (o : SDFObject) (res : ℕ)
    (bounds : Vec3 × Vec3) :
    (o.generate_texture res bounds).length = res ^ 3 := by
  rw [generate_texture_eq,
    length_flatMapRange_uniform res (res * res) _
      (fun i => by
        rw [length_flatMapRange_uniform res res _ (fun j => by simp)])]
  ring

/-- C8: for every object, resolution and sub-region bounds, the texture is
a flat byte buffer of length resolution cubed, iterated x outermost, y
middle, z innermost (the byte for cell (x, y, z) sits at flat index
x*res^2 + y*res + z), holding 1 exactly when the cell center passes the
same surface-adjacency inclusion test as the box generator and 0
otherwise. -/
theorem generate_texture_layout (o : SDFObject) (res : ℕ)
    (bounds : Vec3 × Vec3) (hres : 1 ≤ res) :
    (o.generate_texture res bounds).length = res ^ 3 ∧
    ∀ x y z : ℕ, x < res → y < res → z < res →
      (o.generate_texture res bounds).getD (x * res ^ 2 + y * res + z) 0 =
        if SDFObject.surfTest
            (o.value_at_point (gridCenter bounds.1
              ((bounds.2 - bounds.1).max_element / (res : ℚ)) x y z))
            ((bounds.2 - bounds.1).max_element / (res : ℚ))
        then 1 else 0 :=
  ⟨generate_texture_length o res bounds,
   fun x y z hx hy hz => generate_texture_getD o res bounds x y z hx hy hz⟩

/-- Closed instance of the texture layout theorem at a concrete input. -/
theorem generate_texture_layout_witness :
    (emptyObject.generate_texture 1 (Vec3.zero, Vec3.one)).length = 1 ^ 3 :=
  (generate_texture_layout emptyObject 1 (Vec3.zero, Vec3.one)
    (by decide)).1

/-- All grid cell indices in the generators' iteration order. -/
def gridTriples (res : ℕ) : List (ℕ × ℕ × ℕ) :=
  (List.range res).flatMap fun (x : ℕ) =>
    (List.range res).flatMap fun (y : ℕ) =>
      (List.range res).map fun (z : ℕ) => (x, y, z)

theorem generate_boxes_eq_filterMap_triples (o : SDFObject) (res : ℕ)
    (bounds : Vec3 × Vec3) :
    (o.generate_boxes res bounds).2 =
      (gridTriples res).filterMap fun c =>
        if SDFObject.surfTest
            (o.value_at_point (gridCenter bounds.1
              ((bounds.2 - bounds.1).max_element / (res : ℚ))
              c.1 c.2.1 c.2.2))
            ((bounds.2 - bounds.1).max_element / (res : ℚ))
        then some (gridCenter bounds.1
          ((bounds.2 - bounds.1).max_element / (res : ℚ)) c.1 c.2.1 c.2.2)
        else none := by
  rw [generate_boxes_snd_eq, gridTriples, List.filterMap_flatMap]
  refine List.flatMap_congr ?_
  intro x _
  rw [List.filterMap_flatMap]
  refine List.flatMap_congr ?_
  intro y _
  rw [List.filterMap_map]
  rfl

theorem generate_texture_eq_map_triples (o : SDFObject) (res : ℕ)
    (bounds : Vec3 × Vec3) :
    o.generate_texture res bounds =
      (gridTriples res).map fun c =>
        if SDFObject.surfTest
            (o.value_at_point (gridCenter bounds.1
              ((bounds.2 - bounds.1).max_element / (res : ℚ))
              c.1 c.2.1 c.2.2))
            ((bounds.2 - bounds.1).max_element / (res : ℚ))
        then 1 else 0 := by
  rw [generate_texture_eq, gridTriples, List.map_flatMap]
  refine List.flatMap_congr ?_
  intro x _
  rw [List.map_flatMap]
  refine List.flatMap_congr ?_
  intro y _
  rw [List.map_map]
  rfl

theorem count_one_map_ite_eq_length_filterMap {β : Type}
    (L : List β) (t : β → Bool) (f : β → Vec3) :
    ((L.map fun c => if t c then (1 : ℕ) else 0).count 1) =
      (L.filterMap fun c => if t c then some (f c) else none).length := by
  induction L with
  | nil => rfl
  | cons hd tl ih =>
    by_cases h : t hd = true <;>
      simp [h, List.count_cons, List.filterMap_cons, ih]

/-- C10: texture bytes and box list agree cell by cell — the byte at flat
index x*res^2 + y*res + z is 1 exactly when the center of grid cell
(x, y, z) is in the box list — and the number of 1-bytes in the texture
equals the length of the box list. -/
theorem texture_boxes_agreement (o : SDFObject) (res : ℕ)
    (bounds : Vec3 × Vec3) (hres : 1 ≤ res) :
    (∀ x y z : ℕ, x < res → y < res → z < res →
      ((o.generate_texture res bounds).getD (x * res ^ 2 + y * res + z) 0 =
          1 ↔
        gridCenter bounds.1 ((bounds.2 - bounds.1).max_element / (res : ℚ))
          x y z ∈ (o.generate_boxes res bounds).2)) ∧
    (o.generate_texture res bounds).count 1 =
      (o.generate_boxes res bounds).2.length := by
  constructor
  · intro x y z hx hy hz
    rw [generate_texture_getD o res bounds x y z hx hy hz,
      mem_generate_boxes]
    by_cases h : SDFObject.surfTest
        (o.value_at_point (gridCenter bounds.1
          ((bounds.2 - bounds.1).max_element / (res : ℚ)) x y z))
        ((bounds.2 - bounds.1).max_element / (res : ℚ)) = true
    · rw [if_pos h]
      exact ⟨fun _ => ⟨⟨x, hx, y, hy, z, hz, rfl⟩, h⟩, fun _ => rfl⟩
    · rw [if_neg h]
      constructor
      · intro h01
        exact absurd h01 (by norm_num)
      · rintro ⟨-, ht⟩
        exact absurd ht h
  · rw [generate_texture_eq_map_triples, generate_boxes_eq_filterMap_triples]
    exact count_one_map_ite_eq_length_filterMap (gridTriples res) _ _

/-- Closed instance of the texture/boxes agreement theorem. -/
theorem texture_boxes_agreement_witness :
    (emptyObject.generate_texture 1 (Vec3.zero, Vec3.one)).count 1 =
      (emptyObject.generate_boxes 1 (Vec3.zero, Vec3.one)).2.length :=
  (texture_boxes_agreement emptyObject 1 (Vec3.zero, Vec3.one)
    (by decide)).2

/- Step equations for the LOD loop. -/

theorem generate_lod_boxes_go_succ_none (o : SDFObject) (res : ℕ)
    (minb : ℚ) (bounds : Vec3 × Vec3) (fuel : ℕ)
    (lods : List (ℚ × List (List Vec3))) (h : lods.getLast? = none) :
    o.generate_lod_boxes_go res minb bounds (fuel + 1) lods =
      o.generate_lod_boxes_go res minb bounds fuel
        (lods ++ [((o.generate_boxes res bounds).1,
          [(o.generate_boxes res bounds).2])]) := by
  rw [SDFObject.generate_lod_boxes_go, h]

theorem generate_lod_boxes_go_succ_break (o : SDFObject) (res : ℕ)
    (minb : ℚ) (bounds : Vec3 × Vec3) (fuel : ℕ)
    (lods : List (ℚ × List (List Vec3))) (ls : ℚ) (lvecs : List (List Vec3))
    (h : lods.getLast? = some (ls, lvecs)) (hlt : ls < minb) :
    o.generate_lod_boxes_go res minb bounds (fuel + 1) lods = lods := by
  rw [SDFObject.generate_lod_boxes_go, h]
  exact if_pos hlt

/-- The level pushed by one refining iteration of the LOD loop, with
(ls, lvecs) the last level so far. -/
def lodStep (o : SDFObject) (res : ℕ) (ls : ℚ)
    (lvecs : List (List Vec3)) : ℚ × List (List Vec3) :=
  let lod_half_size := ls / 2
  let new_size := lod_half_size / (res : ℚ)
  let step := lvecs.flatten.foldl
    (fun (acc : ℚ × List (List Vec3)) current =>
      let result := o.generate_boxes res
        (current.subs lod_half_size, current.adds lod_half_size)
      (result.1, acc.2 ++ [result.2]))
    (new_size, [])
  (step.1, step.2)

theorem generate_lod_boxes_go_succ_cont (o : SDFObject) (res : ℕ)
    (minb : ℚ) (bounds : Vec3 × Vec3) (fuel : ℕ)
    (lods : List (ℚ × List (List Vec3))) (ls : ℚ) (lvecs : List (List Vec3))
    (h : lods.getLast? = some (ls, lvecs)) (hge : ¬ls < minb) :
    o.generate_lod_boxes_go res minb bounds (fuel + 1) lods =
      o.generate_lod_boxes_go res minb bounds fuel
        (lods ++ [lodStep o res ls lvecs]) := by
  rw [SDFObject.generate_lod_boxes_go, h]
  exact if_neg hge

theorem lod_inv_append (minb : ℚ) (lods : List (ℚ × List (List Vec3)))
    (x : ℚ × List (List Vec3)) (ls : ℚ) (lvecs : List (List Vec3))
    (hlast : lods.getLast? = some (ls, lvecs)) (hge : minb ≤ ls)
    (hinv : ∀ i, i + 1 < lods.length → minb ≤ (lods.getD i (0, [])).1) :
    ∀ i, i + 1 < (lods ++ [x]).length →
      minb ≤ ((lods ++ [x]).getD i (0, [])).1 := by
  intro i hi
  rw [List.length_append, List.length_singleton] at hi
  have hi' : i < lods.length := by omega
  rw [List.getD_append _ _ _ i hi']
  by_cases h2 : i + 1 < lods.length
  · exact hinv i h2
  · have heq : i = lods.length - 1 := by omega
    have hget := List.getLast?_eq_getElem? lods
    rw [hlast] at hget
    rw [List.getD_eq_getElem?_getD, heq, ← hget]
    exact hge

theorem generate_lod_boxes_go_spec (o : SDFObject) (res : ℕ) (minb : ℚ)
    (bounds : Vec3 × Vec3) :
    ∀ (fuel : ℕ) (lods : List (ℚ × List (List Vec3))),
      (∀ i, i + 1 < lods.length → minb ≤ (lods.getD i (0, [])).1) →
      (∀ i, i + 1 <
          (o.generate_lod_boxes_go res minb bounds fuel lods).length →
        minb ≤
          ((o.generate_lod_boxes_go res minb bounds fuel lods).getD i
            (0, [])).1) ∧
      (o.generate_lod_boxes_go res minb bounds fuel lods).length ≤
        lods.length + fuel ∧
      ((o.generate_lod_boxes_go res minb bounds fuel lods).length <
          lods.length + fuel →
        ∃ l, (o.generate_lod_boxes_go res minb bounds fuel lods).getLast? =
          some l ∧ l.1 < minb) := by
  intro fuel
  induction fuel with
  | zero =>
    intro lods hinv
    exact ⟨hinv, Nat.le_refl _, fun h => absurd h (lt_irrefl _)⟩
  | succ fuel ih =>
    intro lods hinv
    cases hlast : lods.getLast? with
    | none =>
      rw [generate_lod_boxes_go_succ_none o res minb bounds fuel lods hlast]
      have hnil : lods = [] := List.getLast?_eq_none_iff.mp hlast
      subst hnil
      obtain ⟨h1, h2, h3⟩ := ih
        ([] ++ [((o.generate_boxes res bounds).1,
          [(o.generate_boxes res bounds).2])])
        (by intro i hi; simp at hi)
      simp only [List.length_append, List.length_nil,
        List.length_singleton] at h2 h3
      refine ⟨h1, ?_, ?_⟩
      · simp only [List.length_nil]
        omega
      · simp only [List.length_nil]
        intro hlt
        exact h3 (by omega)
    | some lvl =>
      obtain ⟨ls, lvecs⟩ := lvl
      by_cases hlt : ls < minb
      · rw [generate_lod_boxes_go_succ_break o res minb bounds fuel lods ls
          lvecs hlast hlt]
        refine ⟨hinv, by omega, fun _ => ⟨(ls, lvecs), hlast, hlt⟩⟩
      · rw [generate_lod_boxes_go_succ_cont o res minb bounds fuel lods ls
          lvecs hlast hlt]
        obtain ⟨h1, h2, h3⟩ := ih (lods ++ [lodStep o res ls lvecs])
          (lod_inv_append minb lods (lodStep o res ls lvecs) ls lvecs hlast
            (not_lt.mp hlt) hinv)
        rw [List.length_append, List.length_singleton] at h2 h3
        refine ⟨h1, by omega, ?_⟩
        intro hl
        apply h3
        omega

/-- C2 amended: the LOD loop stops once max_lods levels exist or the last
produced level's cell size is below min_box_size (checked before producing
the next level): at most max_lods levels are returned, every level except
possibly the last has cell size at least min_box_size, and when fewer than
max_lods levels are returned the final level's cell size is below
min_box_size. -/
theorem generate_lod_boxes_termination_amended (o : SDFObject) (res : ℕ)
    (max_lods : ℕ) (minb : ℚ) :
    (o.generate_lod_boxes res max_lods minb).length ≤ max_lods ∧
    (∀ i, i + 1 < (o.generate_lod_boxes res max_lods minb).length →
      minb ≤ ((o.generate_lod_boxes res max_lods minb).getD i (0, [])).1) ∧
    ((o.generate_lod_boxes res max_lods minb).length < max_lods →
      ∃ l, (o.generate_lod_boxes res max_lods minb).getLast? = some l ∧
        l.1 < minb) := by
  obtain ⟨h1, h2, h3⟩ := generate_lod_boxes_go_spec o res minb o.get_bounds
    max_lods [] (by intro i hi; simp at hi)
  simp only [List.length_nil, Nat.zero_add] at h2 h3
  exact ⟨h2, h1, h3⟩

set_option maxRecDepth 1000000 in
set_option maxHeartbeats 2000000 in
/-- Closed instance of the amended LOD termination theorem: on the unit-box
object with resolution 2, max_lods 3, min_box_size 9/10, the non-final
level 0 has cell size at least 9/10. -/
theorem generate_lod_boxes_termination_amended_witness :
    (9 : ℚ) / 10 ≤
      ((unitBoxObject.generate_lod_boxes 2 3 (9 / 10)).getD 0 (0, [])).1 :=
  (generate_lod_boxes_termination_amended unitBoxObject 2 3 (9 / 10)).2.1 0
    (by with_unfolding_all decide)

set_option maxRecDepth 1000000 in
set_option maxHeartbeats 2000000 in
/-- C2 counterexample: on the unit-box object, generate_lod_boxes with
resolution 2, max_lods 3 and min_box_size 9/10 produces a second level of
cell size 1/2 < 9/10 — a level after the first whose cell size is below
min_box_size, which the claim rules out (the next level's size 1/2 would
fall below min_box_size, yet the level is still produced). -/
theorem generate_lod_boxes_min_size_counterexample :
    (unitBoxObject.generate_lod_boxes 2 3 (9 / 10)).length = 2 ∧
    ((unitBoxObject.generate_lod_boxes 2 3 (9 / 10)).getD 1 (0, [])).1 =
      1 / 2 ∧
    (1 : ℚ) / 2 < 9 / 10 :=
  ⟨by with_unfolding_all rfl, by with_unfolding_all rfl, by norm_num⟩

set_option maxRecDepth 400000 in
/-- C5 counterexample: on the empty object the last LOD level exists and
contains zero boxes, yet generate_box_mesh returns the empty mesh (no
positions), not the canonical unit-cube fallback mesh. -/
theorem generate_box_mesh_empty_level_counterexample :
    ((emptyObject.generate_lod_boxes 1 1 1).getLast?.map
      (fun l => l.2.flatten.length)) = some 0 ∧
    (emptyObject.generate_box_mesh 1 1 1).positions = [] ∧
    emptyObject.generate_box_mesh 1 1 1 ≠ unitCubeMesh :=
  ⟨by with_unfolding_all rfl, by with_unfolding_all rfl,
   by with_unfolding_all decide⟩

/-- The mesh assembled from the deepest level's grouped boxes (the some
branch of generate_box_mesh). -/
def meshFromBoxes (size : ℚ) (boxes : List (List Vec3)) : Mesh :=
  let acc := boxes.flatten.foldl
    (fun (acc : ℕ × List (ℚ × ℚ × ℚ) × List (ℚ × ℚ × ℚ) × List (ℚ × ℚ) ×
        List ℕ) b =>
      let built := build_box b size acc.1
      (built.1, acc.2.1 ++ built.2.1, acc.2.2.1 ++ built.2.2.1,
        acc.2.2.2.1 ++ built.2.2.2.1, acc.2.2.2.2 ++ built.2.2.2.2))
    (0, [], [], [], [])
  ⟨acc.2.1, acc.2.2.1, acc.2.2.2.1, acc.2.2.2.2⟩

theorem generate_box_mesh_cases (o : SDFObject) (res tl : ℕ) (minb : ℚ) :
    o.generate_box_mesh res tl minb =
      match (o.generate_lod_boxes res tl minb).getLast? with
      | some (size, boxes) => meshFromBoxes size boxes
      | none => unitCubeMesh := rfl

/-- C5 amended: the unit-cube fallback is returned only when
generate_lod_boxes yields no levels at all (which happens exactly for
target_lod = 0); when the last LOD level exists but contains zero boxes,
generate_box_mesh returns an empty mesh (no vertices), which differs from
the non-empty fallback mesh. -/
theorem generate_box_mesh_fallback_amended (o : SDFObject) (res tl : ℕ)
    (minb : ℚ) :
    (o.generate_lod_boxes res tl minb = [] →
      o.generate_box_mesh res tl minb = unitCubeMesh) ∧
    (∀ s bs, (o.generate_lod_boxes res tl minb).getLast? = some (s, bs) →
      bs.flatten = [] →
      (o.generate_box_mesh res tl minb).positions = []) ∧
    unitCubeMesh.positions ≠ [] := by
  refine ⟨?_, ?_, by with_unfolding_all decide⟩
  · intro h
    rw [generate_box_mesh_cases, h]
    rfl
  · intro s bs hlast hflat
    rw [generate_box_mesh_cases, hlast]
    show (meshFromBoxes s bs).positions = []
    simp only [meshFromBoxes, hflat, List.foldl_nil]

/-- Closed instance of the amended mesh-fallback theorem: with zero levels
the fallback cube is returned; with a last level holding zero boxes the
mesh is empty. -/
theorem generate_box_mesh_fallback_amended_witness :
    emptyObject.generate_box_mesh 1 0 1 = unitCubeMesh ∧
    (emptyObject.generate_box_mesh 1 1 1).positions = [] :=
  ⟨(generate_box_mesh_fallback_amended emptyObject 1 0 1).1
      (by with_unfolding_all rfl),
   (generate_box_mesh_fallback_amended emptyObject 1 1 1).2.1 0 [[]]
      (by with_unfolding_all rfl) rfl⟩

/-- The builder calls available on an SDFElement: with_primitive,
with_operation, with_translation, with_rotation and with_scale. -/
inductive BuilderOp where
  | primitive (p : SDFPrimitive)
  | operation (op : SDFOperators)
  | translation (t : Vec3)
  | rotation (r : Quat)
  | scale (s : ℚ)

/-- Apply one builder call to an element. -/
def applyBuilder (e : SDFElement) : BuilderOp → SDFElement
  | .primitive p => e.with_primitive p
  | .operation op => e.with_operation op
  | .translation t => e.with_translation t
  | .rotation r => e.with_rotation r
  | .scale s => e.with_scale s

/-- C9: every element reachable from the default constructor through any
sequence of builder calls keeps its cached inverse equal to the inverse of
the forward transform — each transform-mutating builder recomputes the
inverse in the same operation, so evaluation never sees a stale inverse. -/
theorem builder_inverse_invariant (ops : List BuilderOp) :
    (ops.foldl applyBuilder SDFElement.new).inverse =
      (ops.foldl applyBuilder SDFElement.new).transform.inverse := by
  suffices h : ∀ e : SDFElement, e.inverse = e.transform.inverse →
      (ops.foldl applyBuilder e).inverse =
        (ops.foldl applyBuilder e).transform.inverse from
    h SDFElement.new rfl
  induction ops with
  | nil => intro e he; exact he
  | cons op tl ih =>
    intro e he
    rw [List.foldl_cons]
    apply ih
    cases op with
    | primitive p => exact he
    | operation op => exact he
    | translation t => rfl
    | rotation r => rfl
    | scale s => rfl
